import Mathlib

/-!
Verification of the associative memory engine of the digital-genesis repository.

This file shallowly embeds the parts of the source that the specification's
claims are about:

- `src/config.py` — the graph-related configuration constants;
- `src/core/graph/manager.py` — `GraphManager`: `_load_graph`,
  `_sync_save_graph`, `add_node_if_not_exists`, `add_or_update_edge`;
- `src/core/ltm/manager.py` — `_add_to_stream` / `save_reflection`;
- `src/core/ltm/facts.py` — `get_or_create_fact`, `get_or_create_modality`;
- `src/core/ltm/assets.py` — `_add_or_update_cognitive_asset` and the
  neighbor filter of `_rebuild_graph_for_asset`;
- `src/core/ltm/search.py` — `cooldown_records_by_ids`,
  `get_random_hot_record_as_seed`;
- `src/core/reflection/engine.py` — `_save_and_process`.

Python floats are modelled as rationals (ℚ), Python ints as ℤ, duck-typed
metadata dictionaries as fixed-shape structures whose `.get(key, default)`
fallbacks become `Option.getD`.  The SHA-256 content hash is an arbitrary
function parameter `hashFn : String → String`: the theorems below only use
that hashing is deterministic, never any property of the digest itself.
-/

namespace DigitalGenesis

/-! ## Configuration constants (src/config.py, lines 154-163) -/

def GRAPH_STRUCTURAL_THRESHOLD : ℚ := 85 / 100

def GRAPH_ASSOCIATIVE_THRESHOLD : ℚ := 78 / 100

def GRAPH_DECAY_FACTOR : ℚ := 995 / 1000

def GRAPH_DECAY_THRESHOLD : ℚ := 1 / 100

/-! ## Graph model (src/core/graph/manager.py)

`GraphManager` holds a `networkx.Graph`: an undirected graph whose nodes are
utterance ids carrying attributes, and whose edges carry the metadata written
by `add_or_update_edge`.  An undirected edge is stored once; lookup treats
the endpoint pair as unordered, like `networkx` does. -/

inductive EdgeType
  | associative
  | structural
deriving DecidableEq, Repr

structure NodeAttrs where
  role : String
  timestamp : ℚ
deriving DecidableEq, Repr

structure EdgeData where
  typ : EdgeType
  maxSimilarity : ℚ
  sharedConceptsCount : ℕ
  cumulativeWeight : ℚ
deriving DecidableEq, Repr

structure Edge where
  node1 : String
  node2 : String
  data : EdgeData
deriving DecidableEq, Repr

structure Graph where
  nodes : List (String × NodeAttrs)
  edges : List Edge
deriving DecidableEq, Repr

def emptyGraph : Graph := { nodes := [], edges := [] }

/-- Undirected edge membership test: the stored endpoint pair matches
`(a, b)` in either order, as in `networkx.Graph.has_edge`. -/
def edgeMatches (e : Edge) (a b : String) : Bool :=
  (e.node1 == a && e.node2 == b) || (e.node1 == b && e.node2 == a)

def findEdge (g : Graph) (a b : String) : Option Edge :=
  g.edges.find? (fun e => edgeMatches e a b)

/-- Read the attribute dictionary of the edge between `a` and `b`
(`self.graph[node1_id][node2_id]`). -/
def getEdge (g : Graph) (a b : String) : Option EdgeData :=
  (findEdge g a b).map (fun e => e.data)

/-- Claim metadata as consumed by `add_or_update_edge`: a metadata dictionary
whose `importance` / `confidence` keys are read with `.get(key, 5)`. -/
structure AssetMeta where
  importance : Option ℤ
  confidence : Option ℤ
deriving DecidableEq, Repr

/-- GraphManager.add_or_update_edge (src/core/graph/manager.py, lines 171-227). -/
def add_or_update_edge (g : Graph) (node1_id node2_id : String)
    (similarity_score : ℚ) (asset1_meta asset2_meta : AssetMeta) : Graph :=
  if node1_id = node2_id then g
  else
    let imp1 := asset1_meta.importance.getD 5
    let conf1 := asset1_meta.confidence.getD 5
    let imp2 := asset2_meta.importance.getD 5
    let conf2 := asset2_meta.confidence.getD 5
    let weight_modifier : ℚ := ((imp1 * conf1 + imp2 * conf2 : ℤ) : ℚ) / 200
    let final_weight : ℚ := similarity_score * weight_modifier
    let link_type : EdgeType :=
      if GRAPH_STRUCTURAL_THRESHOLD < similarity_score then .structural else .associative
    if g.edges.any (fun e => edgeMatches e node1_id node2_id) then
      { g with edges := g.edges.map (fun e =>
          if edgeMatches e node1_id node2_id then
            { e with data :=
                { typ :=
                    if link_type = .structural ∧ e.data.typ = .associative then .structural
                    else e.data.typ
                  maxSimilarity := max e.data.maxSimilarity similarity_score
                  sharedConceptsCount := e.data.sharedConceptsCount + 1
                  cumulativeWeight := e.data.cumulativeWeight + final_weight } }
          else e) }
    else
      { g with edges := g.edges ++
          [{ node1 := node1_id, node2 := node2_id,
             data := { typ := link_type, maxSimilarity := similarity_score,
                       sharedConceptsCount := 1, cumulativeWeight := final_weight } }] }

/-- GraphManager.add_node_if_not_exists (src/core/graph/manager.py, lines 157-169). -/
def add_node_if_not_exists (g : Graph) (node_id : String) (attrs : NodeAttrs) : Graph :=
  if g.nodes.any (fun n => n.1 == node_id) then
    { g with nodes := g.nodes.map (fun n => if n.1 == node_id then (n.1, attrs) else n) }
  else
    { g with nodes := g.nodes ++ [(node_id, attrs)] }

/-! ## Decay tick -/

def decayEdge (e : Edge) : Edge :=
  { e with data := { e.data with
      cumulativeWeight := e.data.cumulativeWeight * GRAPH_DECAY_FACTOR } }

/-- Modelled from the spec: `decay_tick()` is named by the spec (section 4.3 and
the section 3 invariants: multiply every edge's weight by the fixed decay
factor `GRAPH_DECAY_FACTOR` and remove every edge whose resulting weight falls
below the floor `GRAPH_DECAY_THRESHOLD`), but no implementation of it exists
under src/ — only the two configuration constants in src/config.py
(lines 160-162) declare it. -/
def decay_tick (g : Graph) : Graph :=
  { g with edges := (g.edges.map decayEdge).filter (fun e =>
      decide (GRAPH_DECAY_THRESHOLD ≤ e.data.cumulativeWeight)) }

/-- Claim C1: one decay tick multiplies the cumulative_weight of every edge by
the fixed decay factor (a constant less than 1) and removes every edge whose
resulting weight falls below the floor threshold; each surviving edge's weight
strictly shrank, and no edge weight after a tick is negative (every survivor
even sits at or above the positive floor). -/
theorem decay_tick_shrinks_and_prunes (g : Graph) :
    GRAPH_DECAY_FACTOR < 1 ∧
    (decay_tick g).edges = (g.edges.map decayEdge).filter (fun e =>
      decide (GRAPH_DECAY_THRESHOLD ≤ e.data.cumulativeWeight)) ∧
    (∀ e, e ∈ (decay_tick g).edges →
      GRAPH_DECAY_THRESHOLD ≤ e.data.cumulativeWeight ∧
      0 ≤ e.data.cumulativeWeight ∧
      ∃ e0, e0 ∈ g.edges ∧ e0.node1 = e.node1 ∧ e0.node2 = e.node2 ∧
        e.data.cumulativeWeight = e0.data.cumulativeWeight * GRAPH_DECAY_FACTOR ∧
        e.data.cumulativeWeight < e0.data.cumulativeWeight) := by
  refine ⟨by norm_num [GRAPH_DECAY_FACTOR], rfl, ?_⟩
  intro e he
  simp only [decay_tick, List.mem_filter, List.mem_map, decide_eq_true_eq] at he
  obtain ⟨⟨e0, he0, hde⟩, hthr⟩ := he
  subst hde
  have hw : GRAPH_DECAY_THRESHOLD ≤ e0.data.cumulativeWeight * GRAPH_DECAY_FACTOR := hthr
  have hpos : (0 : ℚ) < e0.data.cumulativeWeight := by
    by_contra hle
    push_neg at hle
    have : e0.data.cumulativeWeight * GRAPH_DECAY_FACTOR ≤ 0 := by
      have hf : (0 : ℚ) ≤ GRAPH_DECAY_FACTOR := by norm_num [GRAPH_DECAY_FACTOR]
      exact mul_nonpos_of_nonpos_of_nonneg hle hf
    have : GRAPH_DECAY_THRESHOLD ≤ (0 : ℚ) := le_trans hw this
    norm_num [GRAPH_DECAY_THRESHOLD] at this
  refine ⟨hw, ?_, e0, he0, rfl, rfl, rfl, ?_⟩
  · exact le_trans (by norm_num [GRAPH_DECAY_THRESHOLD]) hw
  · simpa [decayEdge] using
      mul_lt_of_lt_one_right hpos (by norm_num [GRAPH_DECAY_FACTOR])

def decayWitnessGraph : Graph :=
  { nodes := [], edges :=
      [{ node1 := "a", node2 := "b",
         data := { typ := .associative, maxSimilarity := 9 / 10,
                   sharedConceptsCount := 1, cumulativeWeight := 1 } }] }

def decayWitnessEdge : Edge :=
  { node1 := "a", node2 := "b",
    data := { typ := .associative, maxSimilarity := 9 / 10,
              sharedConceptsCount := 1, cumulativeWeight := 995 / 1000 } }

/-- Witness for C1: a concrete one-edge graph whose edge survives a decay
tick with its weight multiplied by the decay factor. -/
theorem decay_tick_shrinks_and_prunes_witness :
    GRAPH_DECAY_THRESHOLD ≤ decayWitnessEdge.data.cumulativeWeight ∧
    0 ≤ decayWitnessEdge.data.cumulativeWeight ∧
    ∃ e0, e0 ∈ decayWitnessGraph.edges ∧ e0.node1 = decayWitnessEdge.node1 ∧
      e0.node2 = decayWitnessEdge.node2 ∧
      decayWitnessEdge.data.cumulativeWeight =
        e0.data.cumulativeWeight * GRAPH_DECAY_FACTOR ∧
      decayWitnessEdge.data.cumulativeWeight < e0.data.cumulativeWeight :=
  (decay_tick_shrinks_and_prunes decayWitnessGraph).2.2 decayWitnessEdge (by
    norm_num [decay_tick, decayWitnessGraph, decayWitnessEdge, decayEdge,
      GRAPH_DECAY_FACTOR, GRAPH_DECAY_THRESHOLD, List.filter_cons])

/-! ## Edge lookup lemmas (shared helpers) -/

theorem find?_edgeMatches_map (l : List Edge) (a b : String) (f : Edge → Edge)
    (hf : ∀ e, (f e).node1 = e.node1 ∧ (f e).node2 = e.node2) :
    (l.map f).find? (fun e => edgeMatches e a b)
      = (l.find? (fun e => edgeMatches e a b)).map f := by
  rw [List.find?_map]
  have hp : ((fun e => edgeMatches e a b) ∘ f) = (fun e => edgeMatches e a b) := by
    funext e
    simp [Function.comp, edgeMatches, (hf e).1, (hf e).2]
  rw [hp]

/-- Creating branch of `add_or_update_edge`: on a graph without an edge between
the two distinct nodes, the upsert appends exactly the edge the source
constructs — type from the strict structural-threshold comparison, the
similarity as max_similarity, count 1 and the weighted initial weight. -/
theorem getEdge_add_or_update_new (g : Graph) (a b : String) (sim : ℚ)
    (m1 m2 : AssetMeta) (hab : a ≠ b) (hnone : findEdge g a b = none) :
    getEdge (add_or_update_edge g a b sim m1 m2) a b = some
      { typ := if GRAPH_STRUCTURAL_THRESHOLD < sim then .structural else .associative
        maxSimilarity := sim
        sharedConceptsCount := 1
        cumulativeWeight := sim * (((m1.importance.getD 5 * m1.confidence.getD 5
          + m2.importance.getD 5 * m2.confidence.getD 5 : ℤ) : ℚ) / 200) } := by
  have hfind : g.edges.find? (fun e => edgeMatches e a b) = none := hnone
  have hany : (g.edges.any fun e => edgeMatches e a b) = false := by
    rw [List.any_eq_false]
    intro e he
    exact List.find?_eq_none.mp hfind e he
  simp only [add_or_update_edge, if_neg hab, hany, Bool.false_eq_true, if_false,
    getEdge, findEdge]
  rw [List.find?_append, hfind]
  simp [List.find?, edgeMatches]

/-! ## Claim C2: threshold boundaries -/

/-- Neighbor filter of `AssetExtractor._rebuild_graph_for_asset`
(src/core/ltm/assets.py, lines 294-306): a neighbor fact returned at
`distance` is skipped (`continue`) when its similarity `1 - distance` is
below the associative threshold; only accepted neighbors reach
`add_or_update_edge`. -/
def neighborAccepted (distance : ℚ) : Bool :=
  if (1 - distance) < GRAPH_ASSOCIATIVE_THRESHOLD then false else true

def thresholdMeta : AssetMeta := { importance := some 7, confidence := some 8 }

/-- Claim C2 counterexample: at similarity exactly equal to the structural
threshold (0.85), the upsert between two distinct fresh utterances creates an
edge of type associative, not structural — `add_or_update_edge` compares with
a strict `>`. -/
theorem threshold_boundary_cex :
    (getEdge (add_or_update_edge emptyGraph "u1" "u2" GRAPH_STRUCTURAL_THRESHOLD
        thresholdMeta thresholdMeta) "u1" "u2").map EdgeData.typ =
      some EdgeType.associative ∧
    EdgeType.associative ≠ EdgeType.structural := by
  refine ⟨?_, by decide⟩
  rw [getEdge_add_or_update_new emptyGraph "u1" "u2" GRAPH_STRUCTURAL_THRESHOLD
    thresholdMeta thresholdMeta (by decide) rfl]
  simp

/-- Claim C2 (amended): similarity below the associative threshold is filtered
out before any upsert, so no edge is created; similarity at or between the
associative threshold and the structural threshold (now inclusive at the
top) yields type associative; only similarity strictly above the structural
threshold yields type structural. -/
theorem threshold_boundaries (g : Graph) (a b : String) (sim : ℚ)
    (m1 m2 : AssetMeta) (hab : a ≠ b) (hnone : findEdge g a b = none) :
    (sim < GRAPH_ASSOCIATIVE_THRESHOLD → neighborAccepted (1 - sim) = false) ∧
    (GRAPH_ASSOCIATIVE_THRESHOLD ≤ sim → sim ≤ GRAPH_STRUCTURAL_THRESHOLD →
      (getEdge (add_or_update_edge g a b sim m1 m2) a b).map EdgeData.typ =
        some EdgeType.associative) ∧
    (GRAPH_STRUCTURAL_THRESHOLD < sim →
      (getEdge (add_or_update_edge g a b sim m1 m2) a b).map EdgeData.typ =
        some EdgeType.structural) := by
  refine ⟨?_, ?_, ?_⟩
  · intro h
    simp [neighborAccepted, sub_sub_cancel, h]
  · intro _ h2
    rw [getEdge_add_or_update_new g a b sim m1 m2 hab hnone]
    simp [not_lt.mpr h2]
  · intro h
    rw [getEdge_add_or_update_new g a b sim m1 m2 hab hnone]
    simp [h]

/-- Witness for the amended C2: a similarity strictly between the two
thresholds creates an associative edge, and one strictly above the structural
threshold creates a structural edge. -/
theorem threshold_boundaries_witness :
    ((getEdge (add_or_update_edge emptyGraph "u1" "u2" (80 / 100)
        thresholdMeta thresholdMeta) "u1" "u2").map EdgeData.typ =
      some EdgeType.associative) ∧
    ((getEdge (add_or_update_edge emptyGraph "u1" "u2" (90 / 100)
        thresholdMeta thresholdMeta) "u1" "u2").map EdgeData.typ =
      some EdgeType.structural) :=
  ⟨(threshold_boundaries emptyGraph "u1" "u2" (80 / 100) thresholdMeta thresholdMeta
      (by decide) rfl).2.1
        (by norm_num [GRAPH_ASSOCIATIVE_THRESHOLD])
        (by norm_num [GRAPH_STRUCTURAL_THRESHOLD]),
   (threshold_boundaries emptyGraph "u1" "u2" (90 / 100) thresholdMeta thresholdMeta
      (by decide) rfl).2.2
        (by norm_num [GRAPH_STRUCTURAL_THRESHOLD])⟩

/-! ## Claim C5: edge weight formula -/

def metaC5A : AssetMeta := { importance := some 7, confidence := some 8 }

def metaC5B : AssetMeta := { importance := some 6, confidence := some 9 }

/-- Claim C5 counterexample: with similarity 0.90 and importance/confidence
pairs (7,8) and (6,9), the created edge has cumulative_weight
0.90 × ((7×8+6×9)/200) = 0.90 × 0.55 = 0.495, not the claimed
0.90 × 0.61 = 0.549. -/
theorem edge_weight_scenario_cex :
    getEdge (add_or_update_edge emptyGraph "u1" "u2" (90 / 100) metaC5A metaC5B)
        "u1" "u2" =
      some { typ := .structural, maxSimilarity := 90 / 100, sharedConceptsCount := 1,
             cumulativeWeight := 495 / 1000 } ∧
    (495 / 1000 : ℚ) ≠ 549 / 1000 := by
  refine ⟨?_, by norm_num⟩
  rw [getEdge_add_or_update_new emptyGraph "u1" "u2" (90 / 100) metaC5A metaC5B
    (by decide) rfl]
  norm_num [metaC5A, metaC5B, GRAPH_STRUCTURAL_THRESHOLD]

/-- Claim C5 (amended): every edge-upsert between distinct utterances
contributes the weight
similarity × ((importance_a×confidence_a + importance_b×confidence_b) / 200):
when no edge exists yet it becomes the created edge's initial
cumulative_weight, and when the edge already exists it is added onto the
existing cumulative_weight; in particular, for similarity 0.90 and pairs
(7,8) and (6,9), a newly created edge has type structural and
cumulative_weight 0.90 × 0.55 = 0.495. -/
theorem edge_weight_formula (g : Graph) (a b : String) (sim : ℚ)
    (m1 m2 : AssetMeta) (hab : a ≠ b) :
    (findEdge g a b = none →
      getEdge (add_or_update_edge g a b sim m1 m2) a b = some
        { typ := if GRAPH_STRUCTURAL_THRESHOLD < sim then .structural else .associative
          maxSimilarity := sim
          sharedConceptsCount := 1
          cumulativeWeight := sim * (((m1.importance.getD 5 * m1.confidence.getD 5
            + m2.importance.getD 5 * m2.confidence.getD 5 : ℤ) : ℚ) / 200) }) ∧
    (∀ e0, findEdge g a b = some e0 →
      ∃ d', getEdge (add_or_update_edge g a b sim m1 m2) a b = some d' ∧
        d'.cumulativeWeight = e0.data.cumulativeWeight +
          sim * (((m1.importance.getD 5 * m1.confidence.getD 5
            + m2.importance.getD 5 * m2.confidence.getD 5 : ℤ) : ℚ) / 200)) ∧
    getEdge (add_or_update_edge emptyGraph "uA" "uB" (90 / 100) metaC5A metaC5B)
        "uA" "uB" =
      some { typ := .structural, maxSimilarity := 90 / 100, sharedConceptsCount := 1,
             cumulativeWeight := 495 / 1000 } := by
  refine ⟨fun hnone => getEdge_add_or_update_new g a b sim m1 m2 hab hnone, ?_, ?_⟩
  · intro e0 he0
    have hfe0 : g.edges.find? (fun e => edgeMatches e a b) = some e0 := he0
    have hm : edgeMatches e0 a b = true := by simpa using List.find?_some hfe0
    have hany : (g.edges.any fun e => edgeMatches e a b) = true := by
      rw [List.any_eq_true]
      exact ⟨e0, List.mem_of_find?_eq_some hfe0, hm⟩
    simp only [add_or_update_edge, getEdge, findEdge]
    rw [if_neg hab, if_pos hany]
    dsimp only
    rw [find?_edgeMatches_map g.edges a b _ (fun e => by
      by_cases hme : edgeMatches e a b <;> simp [hme])]
    rw [hfe0]
    simp only [Option.map_some']
    refine ⟨_, rfl, ?_⟩
    simp [hm]
  · rw [getEdge_add_or_update_new emptyGraph "uA" "uB" (90 / 100) metaC5A metaC5B
      (by decide) rfl]
    norm_num [metaC5A, metaC5B, GRAPH_STRUCTURAL_THRESHOLD]

def weightWitnessEdge : Edge :=
  { node1 := "x", node2 := "y",
    data := { typ := .associative, maxSimilarity := 80 / 100,
              sharedConceptsCount := 1, cumulativeWeight := 1 } }

def weightWitnessGraph : Graph := { nodes := [], edges := [weightWitnessEdge] }

/-- Witness for the amended C5 at concrete inputs: metadata (3,4) and (5,6)
with similarity 0.80 give the contribution 0.80 × ((12+30)/200) = 0.168 —
as the initial weight on a fresh pair, and added onto the existing weight 1
when the edge already exists. -/
theorem edge_weight_formula_witness :
    (getEdge (add_or_update_edge emptyGraph "x" "y" (80 / 100)
        { importance := some 3, confidence := some 4 }
        { importance := some 5, confidence := some 6 }) "x" "y" = some
      { typ := if GRAPH_STRUCTURAL_THRESHOLD < (80 / 100 : ℚ) then .structural
               else .associative
        maxSimilarity := 80 / 100
        sharedConceptsCount := 1
        cumulativeWeight := (80 / 100 : ℚ) *
          ((((Option.some (3 : ℤ)).getD 5 * (Option.some (4 : ℤ)).getD 5
            + (Option.some (5 : ℤ)).getD 5 * (Option.some (6 : ℤ)).getD 5 : ℤ) : ℚ)
            / 200) }) ∧
    (∃ d', getEdge (add_or_update_edge weightWitnessGraph "x" "y" (80 / 100)
        { importance := some 3, confidence := some 4 }
        { importance := some 5, confidence := some 6 }) "x" "y" = some d' ∧
      d'.cumulativeWeight = weightWitnessEdge.data.cumulativeWeight +
        (80 / 100 : ℚ) *
          ((((Option.some (3 : ℤ)).getD 5 * (Option.some (4 : ℤ)).getD 5
            + (Option.some (5 : ℤ)).getD 5 * (Option.some (6 : ℤ)).getD 5 : ℤ) : ℚ)
            / 200)) :=
  ⟨(edge_weight_formula emptyGraph "x" "y" (80 / 100)
      { importance := some 3, confidence := some 4 }
      { importance := some 5, confidence := some 6 } (by decide)).1 rfl,
   (edge_weight_formula weightWitnessGraph "x" "y" (80 / 100)
      { importance := some 3, confidence := some 4 }
      { importance := some 5, confidence := some 6 } (by decide)).2.1
      weightWitnessEdge
      (by simp [findEdge, weightWitnessGraph, weightWitnessEdge, List.find?,
        edgeMatches])⟩

/-! ## Claim C7: edge-type monotonicity -/

/-- Claim C7: once an edge is structural, no subsequent `add_or_update_edge`
call — whatever its similarity — reverts it to associative: the edge survives
every upsert with type still structural. -/
theorem edge_type_monotone (g : Graph) (n1 n2 a b : String) (sim : ℚ)
    (m1 m2 : AssetMeta) (d : EdgeData)
    (hold : getEdge g a b = some d) (hstruct : d.typ = .structural) :
    ∃ d', getEdge (add_or_update_edge g n1 n2 sim m1 m2) a b = some d' ∧
      d'.typ = .structural := by
  obtain ⟨e0, he0, hd⟩ :
      ∃ e0, g.edges.find? (fun e => edgeMatches e a b) = some e0 ∧ e0.data = d := by
    unfold getEdge findEdge at hold
    cases hfe : g.edges.find? (fun e => edgeMatches e a b) with
    | none => rw [hfe] at hold; cases hold
    | some e0 => rw [hfe] at hold; exact ⟨e0, rfl, by simpa using hold⟩
  by_cases hnn : n1 = n2
  · refine ⟨d, ?_, hstruct⟩
    simpa [add_or_update_edge, hnn, getEdge, findEdge, he0] using hd
  by_cases hany : (g.edges.any fun e => edgeMatches e n1 n2) = true
  · simp only [add_or_update_edge, getEdge, findEdge]
    rw [if_neg hnn, if_pos hany]
    dsimp only
    rw [find?_edgeMatches_map g.edges a b _ (fun e => by
      by_cases hm : edgeMatches e n1 n2 <;> simp [hm])]
    rw [he0]
    simp only [Option.map_some']
    refine ⟨_, rfl, ?_⟩
    by_cases hm : edgeMatches e0 n1 n2
    · simp [hm, hd, hstruct]
    · simp [hm, hd, hstruct]
  · simp only [add_or_update_edge, getEdge, findEdge]
    rw [if_neg hnn, if_neg hany]
    dsimp only
    refine ⟨d, ?_, hstruct⟩
    rw [List.find?_append, he0]
    simp [hd]

def structuralWitnessGraph : Graph :=
  { nodes := [], edges :=
      [{ node1 := "a", node2 := "b",
         data := { typ := .structural, maxSimilarity := 9 / 10,
                   sharedConceptsCount := 2, cumulativeWeight := 1 } }] }

/-- Witness for C7: a structural edge hit by an upsert with the low
similarity 0.5 stays structural. -/
theorem edge_type_monotone_witness :
    ∃ d', getEdge (add_or_update_edge structuralWitnessGraph "a" "b" (1 / 2)
        thresholdMeta thresholdMeta) "a" "b" = some d' ∧
      d'.typ = .structural :=
  edge_type_monotone structuralWitnessGraph "a" "b" "a" "b" (1 / 2)
    thresholdMeta thresholdMeta
    { typ := .structural, maxSimilarity := 9 / 10,
      sharedConceptsCount := 2, cumulativeWeight := 1 }
    (by simp [getEdge, findEdge, structuralWitnessGraph, List.find?, edgeMatches]) rfl

/-! ## Snapshot persistence (src/core/graph/manager.py, `_load_graph` and
`_sync_save_graph`)

The on-disk contract is four paths: the primary snapshot, its `.bak` sibling,
the `.corrupted` sibling and the `.tmp` file.  Each may be absent, or hold
bytes that either unpickle to a graph (`valid g`) or fail to deserialize
(`corrupt`). -/

inductive FileContent
  | valid (g : Graph)
  | corrupt
deriving DecidableEq, Repr

structure DiskState where
  primary : Option FileContent
  backup : Option FileContent
  corrupted : Option FileContent
  temp : Option FileContent
deriving DecidableEq, Repr

/-- Outcome of `GraphManager._load_graph`: a loaded graph, or the
`RuntimeError` that aborts startup. -/
inductive LoadResult
  | ok (g : Graph)
  | fatal
deriving DecidableEq, Repr

/-- GraphManager._load_graph (src/core/graph/manager.py, lines 38-102).
Primary missing: a valid backup is loaded and promoted (`os.replace`) to the
primary path; a missing or unreadable backup falls through to a fresh
`nx.Graph()`.  Primary present but unreadable: it is renamed to the
`.corrupted` path; then a valid backup loads, and otherwise the
`RuntimeError` is raised. -/
def load_graph (d : DiskState) : LoadResult × DiskState :=
  match d.primary, d.backup with
  | none, some (.valid g) =>
      (.ok g, { d with primary := some (.valid g), backup := none })
  | none, some .corrupt => (.ok emptyGraph, d)
  | none, none => (.ok emptyGraph, d)
  | some (.valid g), _ => (.ok g, d)
  | some .corrupt, some (.valid g) =>
      (.ok g, { d with primary := none, corrupted := some .corrupt })
  | some .corrupt, some .corrupt =>
      (.fatal, { d with primary := none, corrupted := some .corrupt })
  | some .corrupt, none =>
      (.fatal, { d with primary := none, corrupted := some .corrupt })

/-- Claim C3 counterexample: with the primary snapshot file missing and the
backup present but undeserializable, neither the primary nor the backup is
usable, yet `_load_graph` silently proceeds with a brand-new empty graph
instead of refusing to initialize. -/
theorem load_missing_primary_corrupt_backup_cex :
    load_graph { primary := none, backup := some .corrupt,
                 corrupted := none, temp := none } =
      (.ok emptyGraph, { primary := none, backup := some .corrupt,
                         corrupted := none, temp := none }) ∧
    LoadResult.ok emptyGraph ≠ .fatal := by
  exact ⟨rfl, by simp⟩

/-- Claim C3 (amended): snapshot load tries the primary first — a valid
primary loads directly.  If the primary exists but fails to deserialize it is
renamed aside to the corrupted path and the backup is tried; if the backup is
also unusable (absent or corrupt) while the primary existed, startup fails
with the graph subsystem uninitialized.  When the primary file is missing,
however, a valid backup is promoted to primary, and an unusable backup
silently yields a new empty graph rather than a fatal error. -/
theorem load_graph_cases (d : DiskState) :
    (∀ g, d.primary = some (.valid g) → load_graph d = (.ok g, d)) ∧
    (d.primary = some .corrupt →
      (load_graph d).2.corrupted = some .corrupt ∧
      (∀ g, d.backup = some (.valid g) → (load_graph d).1 = .ok g) ∧
      (d.backup = none ∨ d.backup = some .corrupt → (load_graph d).1 = .fatal)) ∧
    (d.primary = none →
      (∀ g, d.backup = some (.valid g) →
        load_graph d = (.ok g, { d with primary := some (.valid g), backup := none })) ∧
      (d.backup = none ∨ d.backup = some .corrupt →
        (load_graph d).1 = .ok emptyGraph)) := by
  refine ⟨?_, ?_, ?_⟩
  · intro g hp
    simp [load_graph, hp]
  · intro hp
    refine ⟨?_, ?_, ?_⟩
    · rcases hb : d.backup with _ | c
      · simp [load_graph, hp, hb]
      · cases c <;> simp [load_graph, hp, hb]
    · intro g hb
      simp [load_graph, hp, hb]
    · rintro (hb | hb) <;> simp [load_graph, hp, hb]
  · intro hp
    refine ⟨?_, ?_⟩
    · intro g hb
      simp [load_graph, hp, hb]
    · rintro (hb | hb) <;> simp [load_graph, hp, hb]

/-- Witness for the amended C3: a valid primary loads as-is; a corrupt
primary with no backup is fatal. -/
theorem load_graph_cases_witness :
    load_graph { primary := some (.valid emptyGraph), backup := none,
                 corrupted := none, temp := none } =
      (.ok emptyGraph, { primary := some (.valid emptyGraph), backup := none,
                         corrupted := none, temp := none }) ∧
    (load_graph { primary := some .corrupt, backup := none,
                  corrupted := none, temp := none }).1 = .fatal :=
  ⟨(load_graph_cases _).1 emptyGraph rfl,
   ((load_graph_cases _).2.1 rfl).2.2 (Or.inl rfl)⟩

/-! ## Claim C4: crash-safety of `snapshot_save`

`GraphManager._sync_save_graph` (src/core/graph/manager.py, lines 104-123)
performs three file-system effects in order: write the serialized graph to
the `.tmp` path; if the primary exists, `os.replace` it onto the `.bak`
path; `os.replace` the `.tmp` file onto the primary path.  A crash may
interrupt after any prefix of these steps. -/

def save_step_temp (d : DiskState) (gNew : Graph) : DiskState :=
  { d with temp := some (.valid gNew) }

def save_step_backup (d : DiskState) : DiskState :=
  if d.primary.isSome then { d with backup := d.primary, primary := none } else d

def save_step_rename (d : DiskState) : DiskState :=
  { d with primary := d.temp, temp := none }

inductive CrashPoint
  | beforeTempWrite
  | afterTempWrite
  | afterBackupMove
  | completed
deriving DecidableEq, Repr

/-- Disk state after the process stops at each possible point of
`_sync_save_graph`. -/
def sync_save_graph_until (d : DiskState) (gNew : Graph) : CrashPoint → DiskState
  | .beforeTempWrite => d
  | .afterTempWrite => save_step_temp d gNew
  | .afterBackupMove => save_step_backup (save_step_temp d gNew)
  | .completed => save_step_rename (save_step_backup (save_step_temp d gNew))

/-- Claim C4: starting from a disk whose primary snapshot is valid, a crash at
any point of `_sync_save_graph` — in particular after the temp-file write but
before the final rename — leaves the disk loadable: the next `_load_graph`
returns a graph, and it is either the old primary's graph (read from the
primary or from the backup it was moved to) or the newly saved graph. -/
theorem snapshot_save_crash_safe (d : DiskState) (gOld gNew : Graph) (c : CrashPoint)
    (hOld : d.primary = some (.valid gOld)) :
    ∃ g, (load_graph (sync_save_graph_until d gNew c)).1 = .ok g ∧
      (g = gOld ∨ g = gNew) := by
  cases c
  · exact ⟨gOld, by simp [sync_save_graph_until, load_graph, hOld], Or.inl rfl⟩
  · exact ⟨gOld, by simp [sync_save_graph_until, save_step_temp, load_graph, hOld],
      Or.inl rfl⟩
  · exact ⟨gOld, by
      simp [sync_save_graph_until, save_step_temp, save_step_backup, load_graph, hOld],
      Or.inl rfl⟩
  · exact ⟨gNew, by
      simp [sync_save_graph_until, save_step_temp, save_step_backup, save_step_rename,
        load_graph, hOld],
      Or.inr rfl⟩

/-- Witness for C4: concrete crash right after the backup move (temp written,
primary moved aside): the load still succeeds. -/
theorem snapshot_save_crash_safe_witness :
    ∃ g, (load_graph (sync_save_graph_until
        { primary := some (.valid emptyGraph), backup := none,
          corrupted := none, temp := none }
        decayWitnessGraph .afterBackupMove)).1 = .ok g ∧
      (g = emptyGraph ∨ g = decayWitnessGraph) :=
  snapshot_save_crash_safe
    { primary := some (.valid emptyGraph), backup := none,
      corrupted := none, temp := none }
    emptyGraph decayWitnessGraph .afterBackupMove rfl

/-! ## Stream records (the `stream` ChromaDB collection)

A record of the main stream as created by `LTM_Manager._add_to_stream`
(src/core/ltm/manager.py, lines 83-130): document text plus the metadata
dictionary `{role, timestamp, access_count, hash}`. -/

structure StreamEntry where
  id : String
  doc : String
  role : String
  timestamp : ℚ
  accessCount : ℤ
  hash : String
deriving DecidableEq, Repr

/-! ## Claim C8: cooldown floor -/

/-- SearchManager.cooldown_records_by_ids (src/core/ltm/search.py,
lines 156-185): an empty id list returns immediately; otherwise the records
with the given ids whose access_count is positive get
`access_count // 2` (Python floor division, `Int.fdiv`), every other record
is left untouched. -/
def cooldown_records_by_ids (store : List StreamEntry) (ids : List String) :
    List StreamEntry :=
  if ids = [] then store
  else store.map (fun r =>
    if r.id ∈ ids ∧ 0 < r.accessCount then
      { r with accessCount := r.accessCount.fdiv 2 }
    else r)

/-- Claim C8: cooldown sends every record of the store to a record with the
same id; a targeted record with non-negative heat ends with exactly the
integer floor of half its heat, which is again non-negative (heat 0 stays 0
since 0 // 2 = 0); and 5 // 2 = 2. -/
theorem cooldown_floor (store : List StreamEntry) (ids : List String) :
    (∀ r', r' ∈ cooldown_records_by_ids store ids → ∃ r, r ∈ store ∧ r'.id = r.id ∧
      (0 ≤ r.accessCount →
        0 ≤ r'.accessCount ∧ (r.id ∈ ids → r'.accessCount = r.accessCount.fdiv 2))) ∧
    Int.fdiv 0 2 = 0 ∧ Int.fdiv 5 2 = 2 := by
  refine ⟨?_, by decide, by decide⟩
  intro r' hr'
  by_cases hids : ids = []
  · subst hids
    simp only [cooldown_records_by_ids, if_pos rfl] at hr'
    exact ⟨r', hr', rfl, fun h0 => ⟨h0, fun hmem => absurd hmem (List.not_mem_nil _)⟩⟩
  · simp only [cooldown_records_by_ids, if_neg hids, List.mem_map] at hr'
    obtain ⟨r, hr, hfr⟩ := hr'
    refine ⟨r, hr, ?_, ?_⟩
    · subst hfr
      by_cases hc : r.id ∈ ids ∧ 0 < r.accessCount <;> simp [hc]
    · intro h0
      subst hfr
      by_cases hc : r.id ∈ ids ∧ 0 < r.accessCount
      · simp only [if_pos hc]
        exact ⟨Int.fdiv_nonneg h0 (by decide), fun _ => by trivial⟩
      · simp only [if_neg hc]
        have h0' : r.accessCount = 0 ∨ r.id ∉ ids := by
          by_cases hmem : r.id ∈ ids
          · left
            rcases lt_or_eq_of_le h0 with hlt | heq
            · exact absurd ⟨hmem, hlt⟩ hc
            · exact heq.symm
          · right
            exact hmem
        refine ⟨h0, fun hmem => ?_⟩
        rcases h0' with hz | hni
        · rw [hz]
          decide
        · exact absurd hmem hni

def cooldownWitnessStore : List StreamEntry :=
  [{ id := "r1", doc := "d", role := "user", timestamp := 0,
     accessCount := 5, hash := "h" }]

def cooldownWitnessEntry : StreamEntry :=
  { id := "r1", doc := "d", role := "user", timestamp := 0,
    accessCount := 2, hash := "h" }

/-- Witness for C8: cooling the single record with heat 5 yields heat 2. -/
theorem cooldown_floor_witness :
    ∃ r, r ∈ cooldownWitnessStore ∧ cooldownWitnessEntry.id = r.id ∧
      (0 ≤ r.accessCount → 0 ≤ cooldownWitnessEntry.accessCount ∧
        (r.id ∈ ["r1"] → cooldownWitnessEntry.accessCount = r.accessCount.fdiv 2)) :=
  (cooldown_floor cooldownWitnessStore ["r1"]).1 cooldownWitnessEntry (by
    have h5 : (5 : ℤ).fdiv 2 = 2 := by decide
    simp [cooldown_records_by_ids, cooldownWitnessStore, cooldownWitnessEntry, h5])

/-! ## Claim C10: seed sampler clamps a non-positive minimum heat to 1 -/

/-- Eligible population of SearchManager.get_random_hot_record_as_seed
(src/core/ltm/search.py, lines 84-118): a min_access_count ≤ 0 is replaced
by 1 before the collection is filtered with the `$gte` comparison
`access_count ≥ min_access_count`. -/
def get_random_hot_population (store : List StreamEntry) (min_access_count : ℤ) :
    List StreamEntry :=
  let m := if min_access_count ≤ 0 then 1 else min_access_count
  store.filter (fun r => decide (m ≤ r.accessCount))

/-- Weights handed to `random.choices`: each eligible record's access_count
(`meta.get('access_count', 0)` — the field is always present on stream
records). -/
def get_random_hot_weights (store : List StreamEntry) (min_access_count : ℤ) :
    List ℤ :=
  (get_random_hot_population store min_access_count).map (fun r => r.accessCount)

/-- Claim C10: for a minimum-heat argument ≤ 0 the sampler's population and
weights are exactly those of minimum 1 — records with heat 0 are never
eligible — and the selection weight of each eligible record is its heat. -/
theorem seed_min_heat_clamped (store : List StreamEntry) (minAc : ℤ)
    (hmin : minAc ≤ 0) :
    get_random_hot_population store minAc = get_random_hot_population store 1 ∧
    get_random_hot_weights store minAc = get_random_hot_weights store 1 ∧
    (∀ r, r ∈ store → r.accessCount = 0 →
      r ∉ get_random_hot_population store minAc) ∧
    get_random_hot_weights store minAc =
      (get_random_hot_population store minAc).map (fun r => r.accessCount) := by
  have hpop : get_random_hot_population store minAc =
      get_random_hot_population store 1 := by
    simp [get_random_hot_population, hmin]
  refine ⟨hpop, by rw [get_random_hot_weights, get_random_hot_weights, hpop], ?_, rfl⟩
  intro r _ h0 hmem
  simp only [get_random_hot_population, if_pos hmin, List.mem_filter,
    decide_eq_true_eq, h0] at hmem
  exact absurd hmem.2 (by decide)

def coldSeedEntry : StreamEntry :=
  { id := "s0", doc := "cold", role := "user", timestamp := 0,
    accessCount := 0, hash := "h0" }

def hotSeedEntry : StreamEntry :=
  { id := "s1", doc := "hot", role := "user", timestamp := 0,
    accessCount := 3, hash := "h1" }

/-- Witness for C10: with requested minimum 0, the heat-0 record is not
eligible, and the population/weights equal those of minimum 1. -/
theorem seed_min_heat_clamped_witness :
    (coldSeedEntry ∉ get_random_hot_population [coldSeedEntry, hotSeedEntry] 0) ∧
    get_random_hot_population [coldSeedEntry, hotSeedEntry] 0 =
      get_random_hot_population [coldSeedEntry, hotSeedEntry] 1 :=
  ⟨(seed_min_heat_clamped [coldSeedEntry, hotSeedEntry] 0 (by decide)).2.2.1
      coldSeedEntry (List.mem_cons_self _ _) rfl,
   (seed_min_heat_clamped [coldSeedEntry, hotSeedEntry] 0 (by decide)).1⟩

/-! ## Canonical store (src/core/ltm/manager.py, facts.py, assets.py)

The four ChromaDB collections are modelled as lists of fixed-shape records;
`hashFn` stands for the SHA-256 hex digest used for content addressing, and
`freshUuid` for `uuid.uuid4()`. -/

structure FactEntry where
  id : String
  doc : String
deriving DecidableEq, Repr

structure AssetEntry where
  id : String
  doc : String
  parent_id : String
  hash : String
  fact_id : String
  modality_id : String
  agent : String
  importance : ℤ
  confidence : ℤ
deriving DecidableEq, Repr

structure LTMState where
  stream : List StreamEntry
  facts : List FactEntry
  modalities : List FactEntry
  assets : List AssetEntry
  graph : Graph
deriving DecidableEq, Repr

def ltmEmpty : LTMState :=
  { stream := [], facts := [], modalities := [], assets := [], graph := emptyGraph }

/-- LTM_Manager._add_to_stream (src/core/ltm/manager.py, lines 83-130):
look up an existing record by the content hash of the text and return its id
unchanged; otherwise create the record with id `f"{role}_{uuid4()}"`, the
metadata `{role, timestamp, access_count := initial_ac, hash}`, and mirror a
graph node for the new id. -/
def addToStream (hashFn : String → String) (st : LTMState) (text role : String)
    (initial_ac : ℤ) (freshUuid : String) (now : ℚ) : String × LTMState :=
  let text_hash := hashFn text
  match st.stream.find? (fun e => e.hash == text_hash) with
  | some e => (e.id, st)
  | none =>
      let new_id := role ++ "_" ++ freshUuid
      (new_id,
       { st with
         stream := st.stream ++
           [{ id := new_id, doc := text, role := role, timestamp := now,
              accessCount := initial_ac, hash := text_hash }],
         graph := add_node_if_not_exists st.graph new_id
           { role := role, timestamp := now } })

/-- FactManager.get_or_create_fact (src/core/ltm/facts.py, lines 40-57):
the fact id is the content hash of the text; the record is added only when
that id is not yet present. -/
def get_or_create_fact (hashFn : String → String) (st : LTMState)
    (fact_text : String) : String × LTMState :=
  let fact_id := hashFn fact_text
  if st.facts.any (fun f => f.id == fact_id) then (fact_id, st)
  else (fact_id, { st with facts := st.facts ++ [{ id := fact_id, doc := fact_text }] })

/-- FactManager.get_or_create_modality (src/core/ltm/facts.py, lines 59-82):
like facts, with the stored document hydrated by a fixed prefix for
embedding. -/
def get_or_create_modality (hashFn : String → String) (st : LTMState)
    (modality_text : String) : String × LTMState :=
  let modality_id := hashFn modality_text
  if st.modalities.any (fun m => m.id == modality_id) then (modality_id, st)
  else
    (modality_id, { st with modalities := st.modalities ++
      [{ id := modality_id, doc := "ментальное действие: " ++ modality_text }] })

/-- One extracted cognitive asset as validated by
AssetExtractor.extract_and_process_assets: agent tag, mental-action verb,
bare fact, importance and confidence. -/
structure AssetData where
  agent : String
  verb : String
  essence : String
  importance : ℤ
  confidence : ℤ
deriving DecidableEq, Repr

/-- AssetExtractor._add_or_update_cognitive_asset (src/core/ltm/assets.py,
lines 198-238): the claim hash is the content hash of
`f"{fact_id}:{modality_id}"`; an existing claim is returned as-is, a new one
is stored with id `asset_` plus the first 16 hash characters and the
vectorizable text `[agent] -> [verb] -> ([fact])`. -/
def add_or_update_cognitive_asset (hashFn : String → String) (st : LTMState)
    (asset_data : AssetData) (parent_id fact_id modality_id : String) :
    String × LTMState :=
  let asset_hash := hashFn (fact_id ++ ":" ++ modality_id)
  match st.assets.find? (fun a => a.hash == asset_hash) with
  | some a => (a.id, st)
  | none =>
      let new_asset_id := "asset_" ++ asset_hash.take 16
      (new_asset_id,
       { st with assets := st.assets ++
         [{ id := new_asset_id,
            doc := "[" ++ asset_data.agent ++ "] -> [" ++ asset_data.verb
              ++ "] -> ([" ++ asset_data.essence ++ "])",
            parent_id := parent_id, hash := asset_hash, fact_id := fact_id,
            modality_id := modality_id, agent := asset_data.agent,
            importance := asset_data.importance,
            confidence := asset_data.confidence }] })

theorem addToStream_found (hashFn : String → String) (st : LTMState)
    (text role : String) (ac : ℤ) (u : String) (t : ℚ) (e : StreamEntry)
    (h : st.stream.find? (fun x => x.hash == hashFn text) = some e) :
    addToStream hashFn st text role ac u t = (e.id, st) := by
  simp [addToStream, h]

theorem addToStream_new (hashFn : String → String) (st : LTMState)
    (text role : String) (ac : ℤ) (u : String) (t : ℚ)
    (h : st.stream.find? (fun x => x.hash == hashFn text) = none) :
    addToStream hashFn st text role ac u t =
      (role ++ "_" ++ u,
       { st with
         stream := st.stream ++
           [{ id := role ++ "_" ++ u, doc := text, role := role, timestamp := t,
              accessCount := ac, hash := hashFn text }],
         graph := add_node_if_not_exists st.graph (role ++ "_" ++ u)
           { role := role, timestamp := t } }) := by
  simp [addToStream, h]

theorem asset_found (hashFn : String → String) (st : LTMState) (d : AssetData)
    (p fid mid : String) (a : AssetEntry)
    (h : st.assets.find? (fun x => x.hash == hashFn (fid ++ ":" ++ mid)) = some a) :
    add_or_update_cognitive_asset hashFn st d p fid mid = (a.id, st) := by
  simp [add_or_update_cognitive_asset, h]

theorem asset_new (hashFn : String → String) (st : LTMState) (d : AssetData)
    (p fid mid : String)
    (h : st.assets.find? (fun x => x.hash == hashFn (fid ++ ":" ++ mid)) = none) :
    add_or_update_cognitive_asset hashFn st d p fid mid =
      ("asset_" ++ (hashFn (fid ++ ":" ++ mid)).take 16,
       { st with assets := st.assets ++
         [{ id := "asset_" ++ (hashFn (fid ++ ":" ++ mid)).take 16,
            doc := "[" ++ d.agent ++ "] -> [" ++ d.verb
              ++ "] -> ([" ++ d.essence ++ "])",
            parent_id := p, hash := hashFn (fid ++ ":" ++ mid), fact_id := fid,
            modality_id := mid, agent := d.agent,
            importance := d.importance, confidence := d.confidence }] }) := by
  simp [add_or_update_cognitive_asset, h]

/-! ## Claim C6: content-addressed idempotence -/

/-- Claim C6: (1) a second ingest of identical utterance text returns the same
id and leaves the whole state untouched; (2) for fresh text a double ingest
leaves exactly one graph node with the new utterance's id; (3) the fact id is
the content hash, so every call returns the same id, and a repeated call
changes nothing; (4) the same for modalities; (5) re-deriving a claim with the
same (fact id, modality id) pair — from any other owning utterance and any
other extracted data — returns the same claim id without creating a
duplicate record. -/
theorem canonical_store_idempotent (hashFn : String → String)
    (st stF stM stA : LTMState)
    (text role role2 factText modalityText : String) (ac1 ac2 : ℤ)
    (u1 u2 : String) (t1 t2 : ℚ) (d1 d2 : AssetData) (p1 p2 fid mid : String) :
    (addToStream hashFn (addToStream hashFn st text role ac1 u1 t1).2
        text role2 ac2 u2 t2 =
      ((addToStream hashFn st text role ac1 u1 t1).1,
       (addToStream hashFn st text role ac1 u1 t1).2)) ∧
    (st.stream.find? (fun x => x.hash == hashFn text) = none →
      (∀ n, n ∈ st.graph.nodes → n.1 ≠ role ++ "_" ++ u1) →
      ((addToStream hashFn (addToStream hashFn st text role ac1 u1 t1).2
          text role2 ac2 u2 t2).2.graph.nodes.filter
        (fun n => n.1 == (addToStream hashFn st text role ac1 u1 t1).1)).length = 1) ∧
    ((get_or_create_fact hashFn stF factText).1 = hashFn factText ∧
      get_or_create_fact hashFn (get_or_create_fact hashFn stF factText).2 factText =
        ((get_or_create_fact hashFn stF factText).1,
         (get_or_create_fact hashFn stF factText).2)) ∧
    ((get_or_create_modality hashFn stM modalityText).1 = hashFn modalityText ∧
      get_or_create_modality hashFn
          (get_or_create_modality hashFn stM modalityText).2 modalityText =
        ((get_or_create_modality hashFn stM modalityText).1,
         (get_or_create_modality hashFn stM modalityText).2)) ∧
    (add_or_update_cognitive_asset hashFn
        (add_or_update_cognitive_asset hashFn stA d1 p1 fid mid).2 d2 p2 fid mid =
      ((add_or_update_cognitive_asset hashFn stA d1 p1 fid mid).1,
       (add_or_update_cognitive_asset hashFn stA d1 p1 fid mid).2)) := by
  have hfind2 : ∀ _h : st.stream.find? (fun x => x.hash == hashFn text) = none,
      ((st.stream ++
          [StreamEntry.mk (role ++ "_" ++ u1) text role t1 ac1 (hashFn text)]).find?
        (fun x => x.hash == hashFn text)) =
      some (StreamEntry.mk (role ++ "_" ++ u1) text role t1 ac1 (hashFn text)) := by
    intro h
    rw [List.find?_append, h]
    simp [List.find?]
  refine ⟨?_, ?_, ?_, ?_, ?_⟩
  · cases hfind : st.stream.find? (fun x => x.hash == hashFn text) with
    | some e =>
      rw [addToStream_found hashFn st text role ac1 u1 t1 e hfind,
          addToStream_found hashFn st text role2 ac2 u2 t2 e hfind]
    | none =>
      rw [addToStream_new hashFn st text role ac1 u1 t1 hfind]
      exact addToStream_found hashFn
        { st with
          stream := st.stream ++
            [StreamEntry.mk (role ++ "_" ++ u1) text role t1 ac1 (hashFn text)],
          graph := add_node_if_not_exists st.graph (role ++ "_" ++ u1)
            { role := role, timestamp := t1 } }
        text role2 ac2 u2 t2
        (StreamEntry.mk (role ++ "_" ++ u1) text role t1 ac1 (hashFn text))
        (hfind2 hfind)
  · intro hnew hfresh
    rw [addToStream_new hashFn st text role ac1 u1 t1 hnew,
        addToStream_found hashFn
          { st with
            stream := st.stream ++
              [StreamEntry.mk (role ++ "_" ++ u1) text role t1 ac1 (hashFn text)],
            graph := add_node_if_not_exists st.graph (role ++ "_" ++ u1)
              { role := role, timestamp := t1 } }
          text role2 ac2 u2 t2
          (StreamEntry.mk (role ++ "_" ++ u1) text role t1 ac1 (hashFn text))
          (hfind2 hnew)]
    dsimp only
    have hany : (st.graph.nodes.any fun n => n.1 == (role ++ "_" ++ u1)) = false := by
      rw [List.any_eq_false]
      intro n hn
      simpa using hfresh n hn
    have hnil : st.graph.nodes.filter (fun n => n.1 == (role ++ "_" ++ u1)) = [] := by
      rw [List.filter_eq_nil_iff]
      intro n hn
      simpa using hfresh n hn
    simp only [add_node_if_not_exists, hany, Bool.false_eq_true, if_false]
    rw [List.filter_append, hnil]
    simp
  · constructor
    · by_cases h : (stF.facts.any fun f => f.id == hashFn factText) = true <;>
        simp [get_or_create_fact, h]
    · by_cases h : (stF.facts.any fun f => f.id == hashFn factText) = true
      · simp [get_or_create_fact, h]
      · have h' : (stF.facts.any fun f => f.id == hashFn factText) = false := by
          simpa using h
        have hany2 : ((stF.facts ++ [FactEntry.mk (hashFn factText) factText]).any
            fun f => f.id == hashFn factText) = true := by
          rw [List.any_append]
          simp
        simp only [get_or_create_fact, h', Bool.false_eq_true, if_false, hany2, if_true]
  · constructor
    · by_cases h : (stM.modalities.any fun m => m.id == hashFn modalityText) = true <;>
        simp [get_or_create_modality, h]
    · by_cases h : (stM.modalities.any fun m => m.id == hashFn modalityText) = true
      · simp [get_or_create_modality, h]
      · have h' : (stM.modalities.any fun m => m.id == hashFn modalityText) = false := by
          simpa using h
        have hany2 : ((stM.modalities ++ [FactEntry.mk (hashFn modalityText)
            ("ментальное действие: " ++ modalityText)]).any
              fun m => m.id == hashFn modalityText) = true := by
          rw [List.any_append]
          simp
        simp only [get_or_create_modality, h', Bool.false_eq_true, if_false, hany2,
          if_true]
  · cases hfind : stA.assets.find? (fun x => x.hash == hashFn (fid ++ ":" ++ mid)) with
    | some a =>
      rw [asset_found hashFn stA d1 p1 fid mid a hfind,
          asset_found hashFn stA d2 p2 fid mid a hfind]
    | none =>
      have hfindA : ((stA.assets ++
          [AssetEntry.mk ("asset_" ++ (hashFn (fid ++ ":" ++ mid)).take 16)
            ("[" ++ d1.agent ++ "] -> [" ++ d1.verb ++ "] -> ([" ++ d1.essence ++ "])")
            p1 (hashFn (fid ++ ":" ++ mid)) fid mid d1.agent
            d1.importance d1.confidence]).find?
          (fun x => x.hash == hashFn (fid ++ ":" ++ mid))) =
          some (AssetEntry.mk ("asset_" ++ (hashFn (fid ++ ":" ++ mid)).take 16)
            ("[" ++ d1.agent ++ "] -> [" ++ d1.verb ++ "] -> ([" ++ d1.essence ++ "])")
            p1 (hashFn (fid ++ ":" ++ mid)) fid mid d1.agent
            d1.importance d1.confidence) := by
        rw [List.find?_append, hfind]
        simp [List.find?]
      rw [asset_new hashFn stA d1 p1 fid mid hfind]
      exact asset_found hashFn
        { stA with assets := stA.assets ++
          [AssetEntry.mk ("asset_" ++ (hashFn (fid ++ ":" ++ mid)).take 16)
            ("[" ++ d1.agent ++ "] -> [" ++ d1.verb ++ "] -> ([" ++ d1.essence ++ "])")
            p1 (hashFn (fid ++ ":" ++ mid)) fid mid d1.agent
            d1.importance d1.confidence] }
        d2 p2 fid mid
        (AssetEntry.mk ("asset_" ++ (hashFn (fid ++ ":" ++ mid)).take 16)
          ("[" ++ d1.agent ++ "] -> [" ++ d1.verb ++ "] -> ([" ++ d1.essence ++ "])")
          p1 (hashFn (fid ++ ":" ++ mid)) fid mid d1.agent
          d1.importance d1.confidence)
        hfindA

def idHash : String → String := fun s => s

/-- Witness for C6: with a concrete hash function and an empty store,
double-ingesting "hello" returns the first id with an unchanged state and
leaves exactly one graph node for it. -/
theorem canonical_store_idempotent_witness :
    (addToStream idHash (addToStream idHash ltmEmpty "hello" "user" 0 "u1" 0).2
        "hello" "user" 0 "u2" 0 =
      ((addToStream idHash ltmEmpty "hello" "user" 0 "u1" 0).1,
       (addToStream idHash ltmEmpty "hello" "user" 0 "u1" 0).2)) ∧
    ((addToStream idHash (addToStream idHash ltmEmpty "hello" "user" 0 "u1" 0).2
        "hello" "user" 0 "u2" 0).2.graph.nodes.filter
      (fun n => n.1 == (addToStream idHash ltmEmpty "hello" "user" 0 "u1" 0).1)).length
      = 1 :=
  ⟨(canonical_store_idempotent idHash ltmEmpty ltmEmpty ltmEmpty ltmEmpty
      "hello" "user" "user" "f" "m" 0 0 "u1" "u2" 0 0
      { agent := "я", verb := "считает", essence := "s", importance := 5, confidence := 5 }
      { agent := "я", verb := "считает", essence := "s", importance := 5, confidence := 5 }
      "p1" "p2" "fid" "mid").1,
   (canonical_store_idempotent idHash ltmEmpty ltmEmpty ltmEmpty ltmEmpty
      "hello" "user" "user" "f" "m" 0 0 "u1" "u2" 0 0
      { agent := "я", verb := "считает", essence := "s", importance := 5, confidence := 5 }
      { agent := "я", verb := "считает", essence := "s", importance := 5, confidence := 5 }
      "p1" "p2" "fid" "mid").2.1 rfl
      (fun n hn => absurd hn (List.not_mem_nil n))⟩

/-! ## Claim C9: the reflection cycle's persisting step
(src/core/reflection/engine.py, `_save_and_process`, lines 139-179) -/

/-- ASCII whitespace as stripped by Python str.strip (space, tab, newline,
carriage return, vertical tab, form feed); the texts modelled here contain no
further Unicode whitespace. -/
def isPySpace (c : Char) : Bool :=
  c == ' ' || c == '\t' || c == '\n' || c == '\r' ||
    c == Char.ofNat 11 || c == Char.ofNat 12

/-- `not thought_text or not thought_text.strip()`: true exactly when the
string is empty or consists of whitespace only. -/
def isBlank (s : String) : Bool := s.toList.all isPySpace

def insertSorted (x : ℤ) : List ℤ → List ℤ
  | [] => [x]
  | y :: ys => if x ≤ y then x :: y :: ys else y :: insertSorted x ys

def sortInts : List ℤ → List ℤ
  | [] => []
  | x :: xs => insertSorted x (sortInts xs)

/-- statistics.median on integers: the middle element of the sorted data for
odd length, the mean of the two middle elements for even length. -/
def pythonMedian (l : List ℤ) : ℚ :=
  let s := sortInts l
  let n := s.length
  if n % 2 = 1 then ((s.getD (n / 2) 0 : ℤ) : ℚ)
  else ((s.getD (n / 2 - 1) 0 + s.getD (n / 2) 0 : ℤ) : ℚ) / 2

/-- Python round() to an integer: round half to even. -/
def pythonRound (q : ℚ) : ℤ :=
  let f := ⌊q⌋
  if q - f < 1 / 2 then f
  else if 1 / 2 < q - f then f + 1
  else if f % 2 = 0 then f else f + 1

/-- A cluster member as returned by SearchManager.get_semantic_cluster
(src/core/ltm/search.py, lines 123-154): id, document, role and
access_count. -/
structure ClusterMember where
  id : String
  doc : String
  role : String
  accessCount : ℤ
deriving DecidableEq, Repr

/-- ReflectionEngine._save_and_process (src/core/reflection/engine.py,
lines 139-179), modelled up to its external effects: blank synthesized text
is rejected (`none`, nothing persisted).  Otherwise the initial access count
is `round(statistics.median(parent_counts))` (0 for an empty cluster), the
text is ingested via `save_reflection` → `_add_to_stream` with role
"internal", asset extraction is invoked on the returned id — the id carried
in the result — and the cluster members are cooled down. -/
def save_and_process (hashFn : String → String) (st : LTMState)
    (thought_text : String) (reflection_cluster : List ClusterMember)
    (freshUuid : String) (now : ℚ) : Option (String × LTMState) :=
  if isBlank thought_text then none
  else
    let parent_counts := reflection_cluster.map (fun m => m.accessCount)
    let initial_thought_ac : ℤ :=
      if parent_counts = [] then 0 else pythonRound (pythonMedian parent_counts)
    let r := addToStream hashFn st thought_text "internal" initial_thought_ac
      freshUuid now
    let cluster_ids := reflection_cluster.map (fun m => m.id)
    some (r.1, { r.2 with stream := cooldown_records_by_ids r.2.stream cluster_ids })

/-- Claim C9: blank (empty or whitespace-only) synthesized output is rejected
and nothing is persisted; otherwise, for fresh text, the text is ingested as
a new utterance with role internal whose initial heat is the rounded median
of the cluster members' heats, and the id handed on to claim extraction is
that new utterance's id. -/
theorem reflection_persisting (hashFn : String → String) (st : LTMState)
    (thought : String) (cluster : List ClusterMember) (u : String) (now : ℚ)
    (hcluster : cluster ≠ [])
    (hnew : st.stream.find? (fun e => e.hash == hashFn thought) = none)
    (hid : ("internal" ++ "_" ++ u) ∉ cluster.map (fun m => m.id)) :
    (isBlank thought = true →
      save_and_process hashFn st thought cluster u now = none) ∧
    (isBlank thought = false →
      ∃ st', save_and_process hashFn st thought cluster u now =
          some ("internal" ++ "_" ++ u, st') ∧
        ∃ e, e ∈ st'.stream ∧ e.id = "internal" ++ "_" ++ u ∧
          e.role = "internal" ∧ e.doc = thought ∧
          e.accessCount =
            pythonRound (pythonMedian (cluster.map (fun m => m.accessCount)))) := by
  constructor
  · intro hb
    simp [save_and_process, hb]
  · intro hb
    have hpc : (cluster.map fun m => m.accessCount) ≠ [] := by
      simpa using hcluster
    have hcid : (cluster.map fun m => m.id) ≠ [] := by
      simpa using hcluster
    have hmem : StreamEntry.mk ("internal" ++ "_" ++ u) thought "internal" now
        (pythonRound (pythonMedian (cluster.map fun m => m.accessCount)))
        (hashFn thought) ∈
        cooldown_records_by_ids
          (st.stream ++ [StreamEntry.mk ("internal" ++ "_" ++ u) thought "internal"
            now (pythonRound (pythonMedian (cluster.map fun m => m.accessCount)))
            (hashFn thought)])
          (cluster.map fun m => m.id) := by
      simp only [cooldown_records_by_ids, if_neg hcid, List.mem_map]
      refine ⟨StreamEntry.mk ("internal" ++ "_" ++ u) thought "internal" now
        (pythonRound (pythonMedian (cluster.map fun m => m.accessCount)))
        (hashFn thought), by simp, ?_⟩
      rw [if_neg]
      rintro ⟨hm, -⟩
      obtain ⟨a, ha, haid⟩ := hm
      exact hid (List.mem_map.mpr ⟨a, ha, by simpa using haid⟩)
    simp only [save_and_process, hb, Bool.false_eq_true, if_false, if_neg hpc]
    rw [addToStream_new hashFn st thought "internal"
      (pythonRound (pythonMedian (cluster.map fun m => m.accessCount))) u now hnew]
    refine ⟨_, rfl, ?_⟩
    refine ⟨StreamEntry.mk ("internal" ++ "_" ++ u) thought "internal" now
        (pythonRound (pythonMedian (cluster.map fun m => m.accessCount)))
        (hashFn thought), ?_, ?_, ?_, ?_, ?_⟩
    · exact hmem
    · rfl
    · rfl
    · rfl
    · rfl

def reflectionWitnessCluster : List ClusterMember :=
  [{ id := "user_a", doc := "da", role := "user", accessCount := 4 },
   { id := "user_b", doc := "db", role := "user", accessCount := 2 }]

/-- Witness for C9: a concrete non-blank thought over a two-member cluster
with heats 4 and 2 is persisted as an internal utterance whose heat is the
rounded median. -/
theorem reflection_persisting_witness :
    ∃ st', save_and_process idHash ltmEmpty "insight" reflectionWitnessCluster
        "xyz" 0 = some ("internal" ++ "_" ++ "xyz", st') ∧
      ∃ e, e ∈ st'.stream ∧ e.id = "internal" ++ "_" ++ "xyz" ∧
        e.role = "internal" ∧ e.doc = "insight" ∧
        e.accessCount = pythonRound (pythonMedian
          (reflectionWitnessCluster.map (fun m => m.accessCount))) :=
  (reflection_persisting idHash ltmEmpty "insight" reflectionWitnessCluster "xyz" 0
    (by decide) rfl (by decide)).2 (by decide)

end DigitalGenesis
